import Mathlib

/-!
# Verification of the termios Lua binding (src/termios.c)

A shallow embedding of `src/termios.c`, a Lua 5.1 binding over the POSIX
terminal-control API.  The binding's own logic (argument resolution, the
speed table, the read-modify-write attribute protocol, and the error
reporting protocol) is translated directly from the C source; the kernel
side (terminal attributes, descriptor flags) is modelled as explicit state,
with per-syscall error injection so that every failure path of the C code
is reachable in the model.  The platform constants are those of Linux
`<asm-generic/termbits.h>`, the header named in the source's own comment
above the `speeds` table.
-/

namespace TermiosLua

/-! ## Platform constants (Linux asm-generic values) -/

def ICANON : Nat := 2
def O_NONBLOCK : Nat := 2048
def EINVAL : Nat := 22
def ENOTSUP : Nat := 95

def IGNBRK : Nat := 1
def BRKINT : Nat := 2
def PARMRK : Nat := 8
def ISTRIP : Nat := 32
def INLCR : Nat := 64
def IGNCR : Nat := 128
def ICRNL : Nat := 256
def IXON : Nat := 1024
def OPOST : Nat := 1
def ECHO : Nat := 8
def ECHONL : Nat := 64
def ISIG : Nat := 1
def IEXTEN : Nat := 32768
def CSIZE : Nat := 48
def PARENB : Nat := 256
def CS8 : Nat := 48

/-- C `int` flag fields are 32-bit; all-ones mask used to express `~m`. -/
def mask32 : Nat := 2 ^ 32 - 1

/-- C expression `x & ~m` on a 32-bit flag word. -/
def candNot (x m : Nat) : Nat := x &&& (mask32 ^^^ m)

/-! ## Kernel-side state: `struct termios` and the descriptor flag word -/

structure Termios where
  c_iflag : Nat
  c_oflag : Nat
  c_cflag : Nat
  c_lflag : Nat
  c_ispeed : Nat
  c_ospeed : Nat
  c_vmin : Nat
  c_vtime : Nat
deriving DecidableEq, Repr

/-- The kernel state a single descriptor's operations act on: its terminal
attributes and its `fcntl` status flag word. -/
structure World where
  attrs : Termios
  flflags : Nat
deriving DecidableEq, Repr

/-! ## Lua values and argument handling -/

/-- A Lua stack slot as seen by the C API: `absent` is a position beyond the
top of the stack (type `LUA_TNONE`), distinct from an explicit `nil`. -/
inductive LuaValue where
  | absent : LuaValue
  | nil : LuaValue
  | boolean : Bool → LuaValue
  | number : Int → LuaValue
deriving DecidableEq, Repr

/-- `lua_toboolean`: false for nil and false; 0 for an absent argument;
everything else (any number, any other value) is true. -/
def lua_toboolean : LuaValue → Bool
  | LuaValue.absent => false
  | LuaValue.nil => false
  | LuaValue.boolean b => b
  | LuaValue.number _ => true

/-- `lua_isnil`: true exactly for type `LUA_TNIL`; an absent argument has
type `LUA_TNONE`, for which this is false. -/
def lua_isnil : LuaValue → Bool
  | LuaValue.nil => true
  | _ => false

/-- `optboolean` from src/termios.c lines 165-171: returns the default only
when the argument is nil, otherwise `lua_toboolean` of the argument. -/
def optboolean (v : LuaValue) (d : Bool) : Bool :=
  if lua_isnil v then d else lua_toboolean v

/-- The first argument of most operations: either a raw descriptor number or
a Lua file handle, which carries its closed flag and its underlying
descriptor (`fileno`). -/
inductive IoArg where
  | fdnum : Int → IoArg
  | handle : Bool → Int → IoArg
deriving DecidableEq, Repr

/-- `check_fileno` from src/termios.c lines 73-85: a number is used as the
descriptor directly; a file handle whose `FILE*` is NULL raises the Lua
error "attempt to use a closed file" (via `luaL_error`, so the C function
does not return), otherwise the handle's descriptor is used.  The raised
error is modelled as `Except.error` carrying the message. -/
def check_fileno : IoArg → Except String Int
  | IoArg.fdnum n => Except.ok n
  | IoArg.handle closed f =>
      if closed then Except.error "attempt to use a closed file" else Except.ok f

/-- The `when` option: `TCSANOW` / `TCSADRAIN` / `TCSAFLUSH`. -/
inductive When where
  | now : When
  | drain : When
  | flush : When
deriving DecidableEq, Repr

/-- `check_when` from src/termios.c lines 87-93: `luaL_checkoption` with
default "flush" (an absent or nil argument selects the default). -/
def check_when (w : Option When) : When := w.getD When.flush

/-! ## Syscall results, error injection and traces -/

/-- The syscalls the binding performs, recorded in a trace so that "no
syscall attempted" claims are statable. -/
inductive Syscall where
  | tcgetattrC : Syscall
  | tcsetattrC : Syscall
  | tcflushC : Syscall
  | tcdrainC : Syscall
  | tcsendbreakC : Syscall
  | fcntlGetC : Syscall
  | fcntlSetC : Syscall
  | openC : Syscall
  | closeC : Syscall
deriving DecidableEq, Repr

/-- Error injection: for each syscall, `some e` makes its next invocation
fail with errno `e`; `none` makes it succeed. -/
structure SysErr where
  tcgetattrE : Option Nat
  tcsetattrE : Option Nat
  fcntlGetE : Option Nat
  fcntlSetE : Option Nat
  tcflushE : Option Nat
  tcdrainE : Option Nat
  tcsendbreakE : Option Nat
  openE : Option Nat
  closeE : Option Nat
deriving DecidableEq, Repr

def noErr : SysErr := SysErr.mk none none none none none none none none none

/-- Every syscall fails with errno `e`. -/
def allErr (e : Nat) : SysErr :=
  SysErr.mk (some e) (some e) (some e) (some e) (some e) (some e) (some e) (some e) (some e)

/-- Only the writing-back step (`tcsetattr` / `fcntl(F_SETFL)`) fails. -/
def setStepErr (e : Nat) : SysErr :=
  SysErr.mk none (some e) none (some e) none none none none none

/-- Modelled from the spec: the platform's `strerror` table, missing from
src/ because it is C library code; it maps an error code to the platform's
human-readable message for it.  Only the code-to-message dependency matters
to the claims, so the message text is a canonical rendering of the code. -/
def strerror (e : Nat) : String := "oserror:" ++ toString e

/-- What a binding function leaves on the Lua stack: a success value, the
three-part failure `nil, strerror(errno), errno` pushed by `push_error`
(src/termios.c lines 63-70), or the four-part failure
`nil, msg, errno, rawspeed` of `getspeed` (lines 428-433). -/
inductive Ret (α : Type) where
  | ok : α → Ret α
  | err3 : String → Nat → Ret α
  | err4 : String → Nat → Nat → Ret α
deriving DecidableEq, Repr

/-- Number of Lua return values each result shape pushes (the `return 1`,
`return 3`, `return 4` of the C code). -/
def retArity {α : Type} : Ret α → Nat
  | Ret.ok _ => 1
  | Ret.err3 _ _ => 3
  | Ret.err4 _ _ _ => 4

/-- Result of running one binding function: the Lua-visible result, the
kernel state afterwards, and the syscalls attempted, in order. -/
structure Outcome (α : Type) where
  ret : Ret α
  world : World
  trace : List Syscall
deriving DecidableEq, Repr

/-! ## The speed table (src/termios.c lines 197-295)

On Linux every `Bxxx` symbol of the source's `#ifdef` list is defined, so
the table has all 31 entries; the `speed` field holds the numeric value of
the `Bxxx` constant from `<asm-generic/termbits.h>`. -/

structure SpeedEntry where
  speed : Nat
  baud : Int
deriving DecidableEq, Repr

def speeds : List SpeedEntry :=
  [SpeedEntry.mk 0 0, SpeedEntry.mk 1 50, SpeedEntry.mk 2 75,
   SpeedEntry.mk 3 110, SpeedEntry.mk 4 134, SpeedEntry.mk 5 150,
   SpeedEntry.mk 6 200, SpeedEntry.mk 7 300, SpeedEntry.mk 8 600,
   SpeedEntry.mk 9 1200, SpeedEntry.mk 10 1800, SpeedEntry.mk 11 2400,
   SpeedEntry.mk 12 4800, SpeedEntry.mk 13 9600, SpeedEntry.mk 14 19200,
   SpeedEntry.mk 15 38400, SpeedEntry.mk 4097 57600, SpeedEntry.mk 4098 115200,
   SpeedEntry.mk 4099 230400, SpeedEntry.mk 4100 460800, SpeedEntry.mk 4101 500000,
   SpeedEntry.mk 4102 576000, SpeedEntry.mk 4103 921600, SpeedEntry.mk 4104 1000000,
   SpeedEntry.mk 4105 1152000, SpeedEntry.mk 4106 1500000, SpeedEntry.mk 4107 2000000,
   SpeedEntry.mk 4108 2500000, SpeedEntry.mk 4109 3000000, SpeedEntry.mk 4110 3500000,
   SpeedEntry.mk 4111 4000000]

/-- The linear first-match forward search of `setspeed` (lines 354-359):
baud value to symbolic speed constant. -/
def lookupSpeedByBaud (baud : Int) : Option Nat :=
  (speeds.find? (fun e => e.baud == baud)).map SpeedEntry.speed

/-- The linear first-match reverse search of `getspeed` (lines 421-426):
symbolic speed constant to baud value. -/
def lookupBaudBySpeed (speed : Nat) : Option Int :=
  (speeds.find? (fun e => e.speed == speed)).map SpeedEntry.baud

/-! ## The binding operations

Each C binding function becomes a Lean function from its (already
type-checked) Lua arguments, the error injection and the kernel state to
`Except String (Outcome α)`: `Except.error msg` models a raised Lua error
(`luaL_error`), which aborts the C function without pushing a result. -/

/-- `ltermios_fileno` (lines 112-119): resolve the io argument, return the
descriptor number.  No syscall. -/
def ltermios_fileno (io : IoArg) (w : World) : Except String (Outcome Int) :=
  match check_fileno io with
  | Except.error m => Except.error m
  | Except.ok fd => Except.ok (Outcome.mk (Ret.ok fd) w [])

/-- `ltermios_setblocking` (lines 128-153): read the flag word with
`fcntl(F_GETFL)`, clear `O_NONBLOCK` to set blocking or set it to clear
blocking, write back with `fcntl(F_SETFL)`. -/
def ltermios_setblocking (io : IoArg) (blocking : LuaValue) (es : SysErr)
    (w : World) : Except String (Outcome IoArg) :=
  match check_fileno io with
  | Except.error m => Except.error m
  | Except.ok _fd =>
    let block := lua_toboolean blocking
    match es.fcntlGetE with
    | some e => Except.ok (Outcome.mk (Ret.err3 (strerror e) e) w [Syscall.fcntlGetC])
    | none =>
      let flags := w.flflags
      let flags2 := if block then candNot flags O_NONBLOCK else flags ||| O_NONBLOCK
      match es.fcntlSetE with
      | some e => Except.ok (Outcome.mk (Ret.err3 (strerror e) e) w
          [Syscall.fcntlGetC, Syscall.fcntlSetC])
      | none => Except.ok (Outcome.mk (Ret.ok io) (World.mk w.attrs flags2)
          [Syscall.fcntlGetC, Syscall.fcntlSetC])

/-- The local-mode mutation of `ltermios_setcanonical` (lines 182-187):
set or clear `ICANON`, nothing else. -/
def setcanonicalLflag (canonical : Bool) (lflag : Nat) : Nat :=
  if canonical then lflag ||| ICANON else candNot lflag ICANON

/-- `ltermios_setcanonical` (lines 172-194): resolve the io argument, read
the attributes, set or clear `ICANON` in `c_lflag` (default true via
`optboolean`), write the attributes back with the `when` policy. -/
def ltermios_setcanonical (io : IoArg) (canonical : LuaValue) (whenArg : Option When)
    (es : SysErr) (w : World) : Except String (Outcome IoArg) :=
  match check_fileno io with
  | Except.error m => Except.error m
  | Except.ok _fd =>
    let canon := optboolean canonical true
    let _opt := check_when whenArg
    match es.tcgetattrE with
    | some e => Except.ok (Outcome.mk (Ret.err3 (strerror e) e) w [Syscall.tcgetattrC])
    | none =>
      let t := w.attrs
      let t2 := Termios.mk t.c_iflag t.c_oflag t.c_cflag
        (setcanonicalLflag canon t.c_lflag) t.c_ispeed t.c_ospeed t.c_vmin t.c_vtime
      match es.tcsetattrE with
      | some e => Except.ok (Outcome.mk (Ret.err3 (strerror e) e) w
          [Syscall.tcgetattrC, Syscall.tcsetattrC])
      | none => Except.ok (Outcome.mk (Ret.ok io) (World.mk t2 w.flflags)
          [Syscall.tcgetattrC, Syscall.tcsetattrC])

/-- Which of `cfsetspeed` / `cfsetispeed` / `cfsetospeed` a `setspeed` call
uses (lines 381-392). -/
inductive SpeedTarget where
  | input : SpeedTarget
  | output : SpeedTarget
  | both : SpeedTarget
deriving DecidableEq, Repr

/-- The C library speed setters: write the symbolic speed into the input
field, the output field, or both. -/
def applySpeed : SpeedTarget → Termios → Nat → Termios
  | SpeedTarget.input, t, s =>
      Termios.mk t.c_iflag t.c_oflag t.c_cflag t.c_lflag s t.c_ospeed t.c_vmin t.c_vtime
  | SpeedTarget.output, t, s =>
      Termios.mk t.c_iflag t.c_oflag t.c_cflag t.c_lflag t.c_ispeed s t.c_vmin t.c_vtime
  | SpeedTarget.both, t, s =>
      Termios.mk t.c_iflag t.c_oflag t.c_cflag t.c_lflag s s t.c_vmin t.c_vtime

/-- `setspeed` (lines 345-379), shared by `cfsetspeed`, `cfsetispeed` and
`cfsetospeed`: resolve the arguments, look the baud value up in the speed
table; if absent, return `nil, "unsupported speed", EINVAL` with no syscall;
otherwise read the attributes, apply the speed setter, write back. -/
def setspeed (tgt : SpeedTarget) (io : IoArg) (baud : Int) (whenArg : Option When)
    (es : SysErr) (w : World) : Except String (Outcome IoArg) :=
  match check_fileno io with
  | Except.error m => Except.error m
  | Except.ok _fd =>
    let _opt := check_when whenArg
    match lookupSpeedByBaud baud with
    | none => Except.ok (Outcome.mk (Ret.err3 "unsupported speed" EINVAL) w [])
    | some speed =>
      match es.tcgetattrE with
      | some e => Except.ok (Outcome.mk (Ret.err3 (strerror e) e) w [Syscall.tcgetattrC])
      | none =>
        let t2 := applySpeed tgt w.attrs speed
        match es.tcsetattrE with
        | some e => Except.ok (Outcome.mk (Ret.err3 (strerror e) e) w
            [Syscall.tcgetattrC, Syscall.tcsetattrC])
        | none => Except.ok (Outcome.mk (Ret.ok io) (World.mk t2 w.flflags)
            [Syscall.tcgetattrC, Syscall.tcsetattrC])

/-- Which of `cfgetispeed` / `cfgetospeed` a `getspeed` call uses
(lines 441-448). -/
inductive GetTarget where
  | input : GetTarget
  | output : GetTarget
deriving DecidableEq, Repr

/-- The C library speed getters: read the input or output speed field. -/
def readSpeed : GetTarget → Termios → Nat
  | GetTarget.input, t => t.c_ispeed
  | GetTarget.output, t => t.c_ospeed

/-- `getspeed` (lines 409-439), shared by `cfgetispeed` and `cfgetospeed`:
read the attributes, fetch the raw symbolic speed, reverse-look it up in
the speed table; if absent, return the four-part
`nil, "unsupported", ENOTSUP, rawspeed`; otherwise return the baud value. -/
def getspeed (tgt : GetTarget) (io : IoArg) (es : SysErr) (w : World) :
    Except String (Outcome Int) :=
  match check_fileno io with
  | Except.error m => Except.error m
  | Except.ok _fd =>
    match es.tcgetattrE with
    | some e => Except.ok (Outcome.mk (Ret.err3 (strerror e) e) w [Syscall.tcgetattrC])
    | none =>
      let speed := readSpeed tgt w.attrs
      match lookupBaudBySpeed speed with
      | none => Except.ok (Outcome.mk (Ret.err4 "unsupported" ENOTSUP speed) w
          [Syscall.tcgetattrC])
      | some baud => Except.ok (Outcome.mk (Ret.ok baud) w [Syscall.tcgetattrC])

/-- Flush direction option of `ltermios_tcflush` (lines 463-466). -/
inductive FlushDir where
  | inDir : FlushDir
  | outDir : FlushDir
  | bothDir : FlushDir
deriving DecidableEq, Repr

/-- `ltermios_tcflush` (lines 459-475): direct syscall wrapper. -/
def ltermios_tcflush (io : IoArg) (dir : Option FlushDir) (es : SysErr)
    (w : World) : Except String (Outcome IoArg) :=
  match check_fileno io with
  | Except.error m => Except.error m
  | Except.ok _fd =>
    let _opt := dir.getD FlushDir.bothDir
    match es.tcflushE with
    | some e => Except.ok (Outcome.mk (Ret.err3 (strerror e) e) w [Syscall.tcflushC])
    | none => Except.ok (Outcome.mk (Ret.ok io) w [Syscall.tcflushC])

/-- `ltermios_tcdrain` (lines 484-495): direct syscall wrapper. -/
def ltermios_tcdrain (io : IoArg) (es : SysErr) (w : World) :
    Except String (Outcome IoArg) :=
  match check_fileno io with
  | Except.error m => Except.error m
  | Except.ok _fd =>
    match es.tcdrainE with
    | some e => Except.ok (Outcome.mk (Ret.err3 (strerror e) e) w [Syscall.tcdrainC])
    | none => Except.ok (Outcome.mk (Ret.ok io) w [Syscall.tcdrainC])

/-- `ltermios_tcsendbreak` (lines 507-519): direct syscall wrapper; the
duration defaults to 0 via `luaL_optint`. -/
def ltermios_tcsendbreak (io : IoArg) (duration : Option Int) (es : SysErr)
    (w : World) : Except String (Outcome IoArg) :=
  match check_fileno io with
  | Except.error m => Except.error m
  | Except.ok _fd =>
    let _dur := duration.getD 0
    match es.tcsendbreakE with
    | some e => Except.ok (Outcome.mk (Ret.err3 (strerror e) e) w [Syscall.tcsendbreakC])
    | none => Except.ok (Outcome.mk (Ret.ok io) w [Syscall.tcsendbreakC])

/-- Modelled from the spec: the platform raw-mode transform `cfmakeraw`,
missing from src/ because it is C library code.  Per its standard
definition it clears BRKINT, ICRNL, IGNBRK, IGNCR, INLCR, ISTRIP, IXON and
PARMRK in the input modes, OPOST in the output modes, ECHO, ECHONL, ICANON,
IEXTEN and ISIG in the local modes, clears CSIZE and PARENB and sets CS8 in
the control modes, and sets VMIN to 1 and VTIME to 0. -/
def cfmakeraw (t : Termios) : Termios :=
  Termios.mk
    (candNot t.c_iflag (IGNBRK ||| BRKINT ||| PARMRK ||| ISTRIP ||| INLCR ||| IGNCR ||| ICRNL ||| IXON))
    (candNot t.c_oflag OPOST)
    ((candNot t.c_cflag (CSIZE ||| PARENB)) ||| CS8)
    (candNot t.c_lflag (ECHO ||| ECHONL ||| ICANON ||| ISIG ||| IEXTEN))
    t.c_ispeed t.c_ospeed 1 0

/-- `ltermios_cfraw` (lines 530-545): read the attributes, apply
`cfmakeraw`, write back with the `when` policy. -/
def ltermios_cfraw (io : IoArg) (whenArg : Option When) (es : SysErr)
    (w : World) : Except String (Outcome IoArg) :=
  match check_fileno io with
  | Except.error m => Except.error m
  | Except.ok _fd =>
    let _opt := check_when whenArg
    match es.tcgetattrE with
    | some e => Except.ok (Outcome.mk (Ret.err3 (strerror e) e) w [Syscall.tcgetattrC])
    | none =>
      let t2 := cfmakeraw w.attrs
      match es.tcsetattrE with
      | some e => Except.ok (Outcome.mk (Ret.err3 (strerror e) e) w
          [Syscall.tcgetattrC, Syscall.tcsetattrC])
      | none => Except.ok (Outcome.mk (Ret.ok io) (World.mk t2 w.flflags)
          [Syscall.tcgetattrC, Syscall.tcsetattrC])

/-- `ltermios_open` (lines 555-567): `open(path, O_NOCTTY|O_RDWR)`; on
success the kernel's fresh descriptor (a parameter of the model) is
returned. -/
def ltermios_open (es : SysErr) (newfd : Int) (w : World) : Outcome Int :=
  match es.openE with
  | some e => Outcome.mk (Ret.err3 (strerror e) e) w [Syscall.openC]
  | none => Outcome.mk (Ret.ok newfd) w [Syscall.openC]

/-- `ltermios_close` (lines 576-583): `close(fd)`; on success it returns
zero Lua values, modelled as `Ret.ok Unit.unit`. -/
def ltermios_close (es : SysErr) (w : World) : Outcome Unit :=
  match es.closeE with
  | some e => Outcome.mk (Ret.err3 (strerror e) e) w [Syscall.closeC]
  | none => Outcome.mk (Ret.ok Unit.unit) w [Syscall.closeC]

/-! ## The published `speeds` Lua table (`ltermios_newspeeds`, lines 303-322) -/

/-- The sequence of `lua_settable` writes of `ltermios_newspeeds`, in
order: for each table index `i` (0-based), first `t[i+1] = baud`, then
`t[baud] = true`. -/
def newspeedsWrites : List (Int × LuaValue) :=
  speeds.enum.flatMap (fun p =>
    [((p.1 : Int) + 1, LuaValue.number p.2.baud), (p.2.baud, LuaValue.boolean true)])

/-- Reading a key of a Lua table built by a sequence of writes: the last
write to the key wins; an unwritten key reads as nil. -/
def tableGet (writes : List (Int × LuaValue)) (k : Int) : LuaValue :=
  match writes.reverse.find? (fun p => p.1 == k) with
  | some p => p.2
  | none => LuaValue.nil

/-- The list of supported baud values, in table order. -/
def baudList : List Int := speeds.map SpeedEntry.baud

/-- The kernel state after `setblocking(d, true)` followed by
`setblocking(d, false)`, both succeeding. -/
def setBlockingPair (w : World) : World :=
  match ltermios_setblocking (IoArg.fdnum 0) (LuaValue.boolean true) noErr w with
  | Except.error _ => w
  | Except.ok o1 =>
    match ltermios_setblocking (IoArg.fdnum 0) (LuaValue.boolean false) noErr o1.world with
    | Except.error _ => o1.world
    | Except.ok o2 => o2.world

/-! ## Bit-level helper lemmas -/

theorem testBit_candNot_of_lt (x m i : Nat) (hx : x < 2 ^ 32)
    (hm : Nat.testBit m i = false) :
    Nat.testBit (candNot x m) i = Nat.testBit x i := by
  unfold candNot mask32
  rw [Nat.testBit_land, Nat.testBit_xor, Nat.testBit_two_pow_sub_one, hm]
  by_cases h : i < 32
  · simp [h]
  · have hxle : 2 ^ 32 ≤ 2 ^ i := Nat.pow_le_pow_right (by norm_num) (by omega)
    have hb : Nat.testBit x i = false :=
      Nat.testBit_eq_false_of_lt (lt_of_lt_of_le hx hxle)
    simp [h, hb]

theorem land_self_nat (k : Nat) : k &&& k = k := by
  apply Nat.eq_of_testBit_eq
  intro i
  rw [Nat.testBit_land]
  cases Nat.testBit k i <;> rfl

theorem candNot_idem (x m : Nat) : candNot (candNot x m) m = candNot x m := by
  unfold candNot
  rw [Nat.land_assoc, land_self_nat]

theorem candNot_or_idem (x m s : Nat) :
    candNot (candNot x m ||| s) m ||| s = candNot x m ||| s := by
  unfold candNot
  apply Nat.eq_of_testBit_eq
  intro i
  simp only [Nat.testBit_land, Nat.testBit_lor]
  cases Nat.testBit x i <;> cases Nat.testBit (mask32 ^^^ m) i <;>
    cases Nat.testBit s i <;> rfl

theorem candNot_or_self_eq_or (x k : Nat) (hk : k < 32) (hx : x < 2 ^ 32) :
    candNot x (2 ^ k) ||| 2 ^ k = x ||| 2 ^ k := by
  apply Nat.eq_of_testBit_eq
  intro i
  rw [Nat.testBit_lor, Nat.testBit_lor]
  by_cases hik : i = k
  · subst hik
    simp [Nat.testBit_two_pow_self]
  · have hkb : Nat.testBit (2 ^ k) i = false :=
      Nat.testBit_two_pow_of_ne (fun h => hik h.symm)
    rw [hkb, testBit_candNot_of_lt x (2 ^ k) i hx hkb]

/-! ## Claim theorems -/

/-- C1: for every baud value absent from the speed table, `setspeed` (hence
`cfsetspeed`, `cfsetispeed` and `cfsetospeed`, which differ only in the
`tgt` argument) returns the three-part failure `nil, "unsupported speed",
EINVAL`, with an empty syscall trace (no attribute read or write attempted,
whatever errors the syscalls would have produced) and the kernel state
unchanged. -/
theorem setspeed_unsupported_fast_path (tgt : SpeedTarget) (n baud : Int)
    (whenArg : Option When) (es : SysErr) (w : World)
    (h : lookupSpeedByBaud baud = none) :
    setspeed tgt (IoArg.fdnum n) baud whenArg es w =
      Except.ok (Outcome.mk (Ret.err3 "unsupported speed" EINVAL) w []) := by
  simp [setspeed, check_fileno, h]

theorem setspeed_unsupported_fast_path_witness :
    lookupSpeedByBaud 13337 = none ∧
    setspeed SpeedTarget.both (IoArg.fdnum 3) 13337 none (allErr 5)
        (World.mk (Termios.mk 1 2 3 4 13 13 1 0) 6) =
      Except.ok (Outcome.mk (Ret.err3 "unsupported speed" EINVAL)
        (World.mk (Termios.mk 1 2 3 4 13 13 1 0) 6) []) :=
  ⟨by decide,
   setspeed_unsupported_fast_path SpeedTarget.both 3 13337 none (allErr 5)
     (World.mk (Termios.mk 1 2 3 4 13 13 1 0) 6) (by decide)⟩

/-- C2: when the attribute read succeeds but the raw speed field has no
speed-table entry, `getspeed` (hence `cfgetispeed` and `cfgetospeed`)
returns the four-part failure `nil, "unsupported", ENOTSUP, rawspeed`
carrying the raw value, which pushes four Lua results and is therefore
distinguishable by arity (and shape) from every three-part OS failure. -/
theorem getspeed_unsupported_value (tgt : GetTarget) (n : Int) (es : SysErr)
    (w : World) (m : String) (c : Nat)
    (h1 : es.tcgetattrE = none)
    (h2 : lookupBaudBySpeed (readSpeed tgt w.attrs) = none) :
    getspeed tgt (IoArg.fdnum n) es w =
      Except.ok (Outcome.mk (Ret.err4 "unsupported" ENOTSUP (readSpeed tgt w.attrs)) w
        [Syscall.tcgetattrC])
    ∧ retArity (Ret.err4 "unsupported" ENOTSUP (readSpeed tgt w.attrs) : Ret Int) = 4
    ∧ retArity (Ret.err3 m c : Ret Int) = 3
    ∧ (Ret.err3 m c : Ret Int) ≠ Ret.err4 "unsupported" ENOTSUP (readSpeed tgt w.attrs) := by
  refine ⟨?_, rfl, rfl, fun hcontra => Ret.noConfusion hcontra⟩
  simp [getspeed, check_fileno, h1, h2]

theorem getspeed_unsupported_value_witness :
    (noErr.tcgetattrE = none) ∧
    lookupBaudBySpeed (readSpeed GetTarget.input (Termios.mk 0 0 0 0 16 15 1 0)) = none ∧
    (getspeed GetTarget.input (IoArg.fdnum 5) noErr
        (World.mk (Termios.mk 0 0 0 0 16 15 1 0) 0) =
      Except.ok (Outcome.mk
        (Ret.err4 "unsupported" ENOTSUP
          (readSpeed GetTarget.input (Termios.mk 0 0 0 0 16 15 1 0)))
        (World.mk (Termios.mk 0 0 0 0 16 15 1 0) 0) [Syscall.tcgetattrC])
    ∧ retArity (Ret.err4 "unsupported" ENOTSUP
        (readSpeed GetTarget.input (Termios.mk 0 0 0 0 16 15 1 0)) : Ret Int) = 4
    ∧ retArity (Ret.err3 "oserror:9" 9 : Ret Int) = 3
    ∧ (Ret.err3 "oserror:9" 9 : Ret Int) ≠ Ret.err4 "unsupported" ENOTSUP
        (readSpeed GetTarget.input (Termios.mk 0 0 0 0 16 15 1 0))) :=
  ⟨rfl, by decide,
   getspeed_unsupported_value GetTarget.input 5 noErr
     (World.mk (Termios.mk 0 0 0 0 16 15 1 0) 0) "oserror:9" 9 rfl (by decide)⟩

/-- C3: the speed table round-trips — for every entry, looking the baud
value up forward yields exactly that entry's symbolic speed, and looking
the symbolic speed up in reverse yields exactly that entry's baud value —
and the table has no duplicate baud values and no duplicate symbolic
speeds. -/
theorem speeds_round_trip_nodup :
    (speeds.all (fun e =>
        (lookupSpeedByBaud e.baud == some e.speed) &&
        (lookupBaudBySpeed e.speed == some e.baud))) = true
    ∧ (speeds.map SpeedEntry.baud).Nodup
    ∧ (speeds.map SpeedEntry.speed).Nodup := by
  refine ⟨by decide, by decide, by decide⟩

/-- C6: the raw-mode transform applied by `cfraw` is idempotent — applying
`cfmakeraw` twice yields the same attributes as applying it once, for every
starting attribute state. -/
theorem cfmakeraw_idempotent (t : Termios) : cfmakeraw (cfmakeraw t) = cfmakeraw t := by
  simp [cfmakeraw, candNot_idem, candNot_or_idem]

/-- C4, counterexample: starting from a flag word with the non-blocking
flag (`O_NONBLOCK`, bit 11) clear, `setblocking(d, true)` followed by
`setblocking(d, false)` leaves the non-blocking flag set, so the pair does
not restore the flag's original value for every initial state. -/
theorem setblocking_pair_not_round_trip :
    Nat.testBit (World.mk (Termios.mk 0 0 0 0 0 0 0 0) 0).flflags 11 = false
    ∧ Nat.testBit (setBlockingPair (World.mk (Termios.mk 0 0 0 0 0 0 0 0) 0)).flflags 11 = true := by
  refine ⟨by decide, by decide⟩

/-- C4, amended: after `setblocking(d, true)` then `setblocking(d, false)`
the flag word equals the original word with `O_NONBLOCK` forced on — the
non-blocking flag ends set and every other flag bit keeps its original
value; in particular the original state is restored exactly when the
non-blocking flag was set before the pair of calls. -/
theorem setblocking_pair_sets_nonblock (w : World) (i : Nat) (hi : i ≠ 11)
    (hx : w.flflags < 2 ^ 32) :
    (setBlockingPair w).flflags = w.flflags ||| O_NONBLOCK
    ∧ Nat.testBit (setBlockingPair w).flflags 11 = true
    ∧ Nat.testBit (setBlockingPair w).flflags i = Nat.testBit w.flflags i
    ∧ (setBlockingPair w).attrs = w.attrs := by
  have hpair : (setBlockingPair w).flflags = candNot w.flflags O_NONBLOCK ||| O_NONBLOCK := rfl
  have hpow : O_NONBLOCK = 2 ^ 11 := rfl
  have key : (setBlockingPair w).flflags = w.flflags ||| O_NONBLOCK := by
    rw [hpair, hpow]
    exact candNot_or_self_eq_or w.flflags 11 (by norm_num) hx
  refine ⟨key, ?_, ?_, rfl⟩
  · rw [key, hpow, Nat.testBit_lor, Nat.testBit_two_pow_self]
    simp
  · rw [key, hpow, Nat.testBit_lor, Nat.testBit_two_pow_of_ne (fun h => hi h.symm)]
    simp

theorem setblocking_pair_sets_nonblock_witness :
    (0 : Nat) ≠ 11 ∧ (2048 : Nat) < 2 ^ 32 ∧
    ((setBlockingPair (World.mk (Termios.mk 0 0 0 0 0 0 0 0) 2048)).flflags =
        (2048 : Nat) ||| O_NONBLOCK
    ∧ Nat.testBit (setBlockingPair (World.mk (Termios.mk 0 0 0 0 0 0 0 0) 2048)).flflags 11 = true
    ∧ Nat.testBit (setBlockingPair (World.mk (Termios.mk 0 0 0 0 0 0 0 0) 2048)).flflags 0 =
        Nat.testBit (2048 : Nat) 0
    ∧ (setBlockingPair (World.mk (Termios.mk 0 0 0 0 0 0 0 0) 2048)).attrs =
        Termios.mk 0 0 0 0 0 0 0 0) :=
  ⟨by decide, by norm_num,
   setblocking_pair_sets_nonblock (World.mk (Termios.mk 0 0 0 0 0 0 0 0) 2048) 0
     (by decide) (by norm_num)⟩

/-- C5: `setcanonical` performs exactly the read-modify-write whose only
mutation is the `ICANON` bit of `c_lflag` — every other attribute field is
copied unchanged, every non-`ICANON` bit of `c_lflag` is preserved, and
after `setcanonical(d, true)` then `setcanonical(d, false)` every
non-`ICANON` local-mode bit equals its value before the pair of calls. -/
theorem setcanonical_isolates_icanon (w : World) (b : Bool) (whenArg : Option When)
    (n : Int) (i : Nat) (hi : i ≠ 1) (hx : w.attrs.c_lflag < 2 ^ 32) :
    ltermios_setcanonical (IoArg.fdnum n) (LuaValue.boolean b) whenArg noErr w =
      Except.ok (Outcome.mk (Ret.ok (IoArg.fdnum n))
        (World.mk (Termios.mk w.attrs.c_iflag w.attrs.c_oflag w.attrs.c_cflag
            (setcanonicalLflag b w.attrs.c_lflag) w.attrs.c_ispeed w.attrs.c_ospeed
            w.attrs.c_vmin w.attrs.c_vtime) w.flflags)
        [Syscall.tcgetattrC, Syscall.tcsetattrC])
    ∧ Nat.testBit (setcanonicalLflag b w.attrs.c_lflag) i = Nat.testBit w.attrs.c_lflag i
    ∧ Nat.testBit (setcanonicalLflag false (setcanonicalLflag true w.attrs.c_lflag)) i
        = Nat.testBit w.attrs.c_lflag i := by
  have hpow : ICANON = 2 ^ 1 := rfl
  have hbit : Nat.testBit ICANON i = false := by
    rw [hpow]
    exact Nat.testBit_two_pow_of_ne (fun h => hi h.symm)
  have hor : ∀ l : Nat, Nat.testBit (l ||| ICANON) i = Nat.testBit l i := by
    intro l
    rw [Nat.testBit_lor, hbit]
    simp
  refine ⟨rfl, ?_, ?_⟩
  · cases b with
    | true => exact hor w.attrs.c_lflag
    | false => exact testBit_candNot_of_lt w.attrs.c_lflag ICANON i hx hbit
  · have hlt : setcanonicalLflag true w.attrs.c_lflag < 2 ^ 32 := by
      have h2 : ICANON < 2 ^ 32 := by norm_num [ICANON]
      exact Nat.or_lt_two_pow hx h2
    have h1 : Nat.testBit (setcanonicalLflag false (setcanonicalLflag true w.attrs.c_lflag)) i
        = Nat.testBit (setcanonicalLflag true w.attrs.c_lflag) i :=
      testBit_candNot_of_lt (setcanonicalLflag true w.attrs.c_lflag) ICANON i hlt hbit
    rw [h1]
    exact hor w.attrs.c_lflag

theorem setcanonical_isolates_icanon_witness :
    (0 : Nat) ≠ 1 ∧ (6 : Nat) < 2 ^ 32 ∧
    (ltermios_setcanonical (IoArg.fdnum 4) (LuaValue.boolean true) none noErr
        (World.mk (Termios.mk 1 2 3 6 13 13 1 0) 9) =
      Except.ok (Outcome.mk (Ret.ok (IoArg.fdnum 4))
        (World.mk (Termios.mk 1 2 3 (setcanonicalLflag true 6) 13 13 1 0) 9)
        [Syscall.tcgetattrC, Syscall.tcsetattrC])
    ∧ Nat.testBit (setcanonicalLflag true 6) 0 = Nat.testBit 6 0
    ∧ Nat.testBit (setcanonicalLflag false (setcanonicalLflag true 6)) 0 = Nat.testBit 6 0) :=
  ⟨by decide, by norm_num,
   setcanonical_isolates_icanon (World.mk (Termios.mk 1 2 3 6 13 13 1 0) 9) true none 4 0
     (by decide) (by norm_num)⟩

/-- C7: whenever a syscall fails, the operation returns exactly the
three-part failure `nil, strerror(errno-at-failure), errno`, its trace ends
at the failing syscall (attempted once, no retry), and the kernel state is
left as it was (no recovery mutation).  Covered for every operation and
both failure points of the read-modify-write sequences: the first ten
conjuncts inject a failure into every syscall so the first syscall of each
operation fails; the last four make only the write-back step
(`tcsetattr` / `fcntl(F_SETFL)`) fail after a successful read, for each of
the four read-modify-write operations: `setcanonical`, `setblocking`,
`setspeed` (shared by the three cfset variants) and `cfraw`. -/
theorem syscall_failure_three_part (e : Nat) (w : World) :
    ltermios_setblocking (IoArg.fdnum 0) (LuaValue.boolean true) (allErr e) w =
      Except.ok (Outcome.mk (Ret.err3 (strerror e) e) w [Syscall.fcntlGetC])
    ∧ ltermios_setcanonical (IoArg.fdnum 0) (LuaValue.boolean true) none (allErr e) w =
      Except.ok (Outcome.mk (Ret.err3 (strerror e) e) w [Syscall.tcgetattrC])
    ∧ setspeed SpeedTarget.both (IoArg.fdnum 0) 9600 none (allErr e) w =
      Except.ok (Outcome.mk (Ret.err3 (strerror e) e) w [Syscall.tcgetattrC])
    ∧ getspeed GetTarget.input (IoArg.fdnum 0) (allErr e) w =
      Except.ok (Outcome.mk (Ret.err3 (strerror e) e) w [Syscall.tcgetattrC])
    ∧ ltermios_tcflush (IoArg.fdnum 0) none (allErr e) w =
      Except.ok (Outcome.mk (Ret.err3 (strerror e) e) w [Syscall.tcflushC])
    ∧ ltermios_tcdrain (IoArg.fdnum 0) (allErr e) w =
      Except.ok (Outcome.mk (Ret.err3 (strerror e) e) w [Syscall.tcdrainC])
    ∧ ltermios_tcsendbreak (IoArg.fdnum 0) none (allErr e) w =
      Except.ok (Outcome.mk (Ret.err3 (strerror e) e) w [Syscall.tcsendbreakC])
    ∧ ltermios_cfraw (IoArg.fdnum 0) none (allErr e) w =
      Except.ok (Outcome.mk (Ret.err3 (strerror e) e) w [Syscall.tcgetattrC])
    ∧ ltermios_open (allErr e) 7 w = Outcome.mk (Ret.err3 (strerror e) e) w [Syscall.openC]
    ∧ ltermios_close (allErr e) w = Outcome.mk (Ret.err3 (strerror e) e) w [Syscall.closeC]
    ∧ ltermios_setcanonical (IoArg.fdnum 0) (LuaValue.boolean true) none (setStepErr e) w =
      Except.ok (Outcome.mk (Ret.err3 (strerror e) e) w
        [Syscall.tcgetattrC, Syscall.tcsetattrC])
    ∧ ltermios_setblocking (IoArg.fdnum 0) (LuaValue.boolean true) (setStepErr e) w =
      Except.ok (Outcome.mk (Ret.err3 (strerror e) e) w
        [Syscall.fcntlGetC, Syscall.fcntlSetC])
    ∧ setspeed SpeedTarget.both (IoArg.fdnum 0) 9600 none (setStepErr e) w =
      Except.ok (Outcome.mk (Ret.err3 (strerror e) e) w
        [Syscall.tcgetattrC, Syscall.tcsetattrC])
    ∧ ltermios_cfraw (IoArg.fdnum 0) none (setStepErr e) w =
      Except.ok (Outcome.mk (Ret.err3 (strerror e) e) w
        [Syscall.tcgetattrC, Syscall.tcsetattrC]) :=
  ⟨rfl, rfl, rfl, rfl, rfl, rfl, rfl, rfl, rfl, rfl, rfl, rfl, rfl, rfl⟩

/-- C8: the code contradicts its own documented default.  When the
canonical argument is an explicit nil, `optboolean` returns the default and
`ICANON` is set; but when the argument is absent (`LUA_TNONE`),
`lua_isnil` is false and `lua_toboolean` yields false, so `setcanonical`
CLEARS `ICANON` instead of applying the documented default of true. -/
theorem setcanonical_absent_clears_icanon (w : World) (n : Int) :
    optboolean LuaValue.absent true = false
    ∧ optboolean LuaValue.nil true = true
    ∧ ltermios_setcanonical (IoArg.fdnum n) LuaValue.absent none noErr w =
      Except.ok (Outcome.mk (Ret.ok (IoArg.fdnum n))
        (World.mk (Termios.mk w.attrs.c_iflag w.attrs.c_oflag w.attrs.c_cflag
            (candNot w.attrs.c_lflag ICANON) w.attrs.c_ispeed w.attrs.c_ospeed
            w.attrs.c_vmin w.attrs.c_vtime) w.flflags)
        [Syscall.tcgetattrC, Syscall.tcsetattrC])
    ∧ ltermios_setcanonical (IoArg.fdnum n) LuaValue.nil none noErr w =
      Except.ok (Outcome.mk (Ret.ok (IoArg.fdnum n))
        (World.mk (Termios.mk w.attrs.c_iflag w.attrs.c_oflag w.attrs.c_cflag
            (w.attrs.c_lflag ||| ICANON) w.attrs.c_ispeed w.attrs.c_ospeed
            w.attrs.c_vmin w.attrs.c_vtime) w.flflags)
        [Syscall.tcgetattrC, Syscall.tcsetattrC]) :=
  ⟨rfl, rfl, rfl, rfl⟩

/-- C9: every operation that takes a descriptor-or-handle, given a handle
that reports itself closed, raises the host's standard closed-file error
"attempt to use a closed file" (modelled as `Except.error`, i.e. a
`luaL_error` raise that aborts the function) — it never reaches a syscall
and never produces the three-part OS-failure result, whatever the other
arguments, injected errors and kernel state are. -/
theorem closed_handle_fails_fast (f : Int) (w : World) (es : SysErr) (v : LuaValue)
    (whenArg : Option When) (tgt : SpeedTarget) (gt : GetTarget) (baud : Int)
    (dir : Option FlushDir) (dur : Option Int) :
    ltermios_fileno (IoArg.handle true f) w = Except.error "attempt to use a closed file"
    ∧ ltermios_setblocking (IoArg.handle true f) v es w =
        Except.error "attempt to use a closed file"
    ∧ ltermios_setcanonical (IoArg.handle true f) v whenArg es w =
        Except.error "attempt to use a closed file"
    ∧ setspeed tgt (IoArg.handle true f) baud whenArg es w =
        Except.error "attempt to use a closed file"
    ∧ getspeed gt (IoArg.handle true f) es w =
        Except.error "attempt to use a closed file"
    ∧ ltermios_tcflush (IoArg.handle true f) dir es w =
        Except.error "attempt to use a closed file"
    ∧ ltermios_tcdrain (IoArg.handle true f) es w =
        Except.error "attempt to use a closed file"
    ∧ ltermios_tcsendbreak (IoArg.handle true f) dur es w =
        Except.error "attempt to use a closed file"
    ∧ ltermios_cfraw (IoArg.handle true f) whenArg es w =
        Except.error "attempt to use a closed file" :=
  ⟨rfl, rfl, rfl, rfl, rfl, rfl, rfl, rfl, rfl⟩

/-- C10: the published `speeds` table is one table serving as both views
without key collision — index `i` (1-based) reads back the i-th supported
baud value, the baud values are strictly increasing starting at 0, every
supported baud value reads back `true`, every baud value is 0 or at least
50, and no list index `i+1` (1..N) coincides with any baud value. -/
theorem newspeeds_dual_view :
    ((List.range speeds.length).all (fun i =>
        tableGet newspeedsWrites ((i : Int) + 1) == LuaValue.number (baudList.getD i 0))) = true
    ∧ List.Pairwise (fun a b => a < b) baudList
    ∧ baudList.head? = some 0
    ∧ (baudList.all (fun b => tableGet newspeedsWrites b == LuaValue.boolean true)) = true
    ∧ (baudList.all (fun b => decide (b = 0 ∨ 50 ≤ b))) = true
    ∧ ((List.range speeds.length).all (fun i => decide (((i : Int) + 1) ∉ baudList))) = true := by
  refine ⟨by decide, by decide, by decide, by decide, by decide, by decide⟩

end TermiosLua
